import Mathlib

/-!
Shallow embedding of klauer/gitfuse (Python) for specification checking.

Source files embedded: src/gitfuse/cache.py, src/gitfuse/ghclient.py,
src/gitfuse/fs.py, src/gitfuse/path_tree.py, src/gitfuse/directory_entry.py,
src/gitfuse/githubfs.py.

Modelling conventions:
* Python dicts are association lists with insert-or-replace semantics
  (`dictInsert` / `dictGet`).
* Code that raises is modelled with `Option` / `Except` / an explicit
  "raised" constructor; a raise happens at the program point where the
  Python expression raises, so state built before that point is kept and
  state after it is not.
* Wall-clock values (`time.time()`), uids and gids are explicit parameters.
* `time.mktime` interprets a struct-tm in the local timezone; it is modelled
  as `timegm` minus an explicit UTC-offset parameter `tzOff` (seconds east
  of UTC), so `tzOff = 0` is a UTC locale.
-/

namespace GitFuse

/-- Python `d[k] = v` on a dict represented as an association list:
replace the value of an existing key in place, else append the pair. -/
def dictInsert {κ : Type} {α : Type} [DecidableEq κ] (k : κ) (v : α) :
    List (κ × α) → List (κ × α)
  | [] => [(k, v)]
  | (k', v') :: rest =>
      if k' = k then (k, v) :: rest else (k', v') :: dictInsert k v rest

/-- Python `d.get(k)` / `d[k]` lookup on a dict represented as an
association list. -/
def dictGet {κ : Type} {α : Type} [DecidableEq κ] (k : κ) :
    List (κ × α) → Option α
  | [] => none
  | (k', v') :: rest => if k' = k then some v' else dictGet k rest

@[simp] theorem dictGet_insert_self {κ α : Type} [DecidableEq κ]
    (k : κ) (v : α) (l : List (κ × α)) :
    dictGet k (dictInsert k v l) = some v := by
  induction l with
  | nil => simp [dictInsert, dictGet]
  | cons p rest ih =>
      by_cases h : p.1 = k
      · simp [dictInsert, dictGet, h]
      · simp [dictInsert, dictGet, h, ih]

@[simp] theorem dictGet_insert_ne {κ α : Type} [DecidableEq κ]
    (k k' : κ) (v : α) (l : List (κ × α)) (h : k' ≠ k) :
    dictGet k' (dictInsert k v l) = dictGet k' l := by
  induction l with
  | nil => simp [dictInsert, dictGet, Ne.symm h]
  | cons p rest ih =>
      by_cases hp : p.1 = k
      · simp [dictInsert, dictGet, hp, Ne.symm h]
      · by_cases hp' : p.1 = k'
        · simp [dictInsert, dictGet, hp, hp', h, Ne.symm h]
        · simp [dictInsert, dictGet, hp, hp', ih]

/-! ## cache.py — TaggedCache -/

/-- src/gitfuse/cache.py `TaggedCache(dict)`: the dict contents (`data`,
Python `dict(self)`) plus the parallel `tags` dict. `V` is the value type,
`T` the tag type (an ETag for ghclient's etag caches, a timestamp for the
staleness caches). -/
structure TaggedCache (V T : Type) where
  data : List (String × V)
  tags : List (String × T)
deriving DecidableEq, Repr

/-- cache.py `set_with_tag`: `self.tags[key] = tag; self[key] = value` —
the single mutator updating both maps together. -/
def TaggedCache.set_with_tag {V T : Type} (c : TaggedCache V T)
    (key : String) (tag : T) (value : V) : TaggedCache V T :=
  { data := dictInsert key value c.data, tags := dictInsert key tag c.tags }

/-- A deserialized persisted-cache document as `__setstate__` receives it:
either key may be missing from the JSON object. -/
structure CacheDoc (V T : Type) where
  tags : Option (List (String × T))
  data : Option (List (String × V))
deriving DecidableEq, Repr

/-- cache.py `__setstate__`, step by step: `assert 'tags' in state`,
`assert 'data' in state` (each raising `AssertionError` before any map is
touched), then `self.tags.clear()`, `self.clear()`,
`self.tags.update(state['tags'])`, `self.update(state['data'])`.
Result: `some ()` in the first component models the raised
`AssertionError`, in which case the returned cache is the state at the
raise point. -/
def TaggedCache.setstate {V T : Type} (c : TaggedCache V T)
    (doc : CacheDoc V T) : Option Unit × TaggedCache V T :=
  if doc.tags.isNone then (some (), c)
  else if doc.data.isNone then (some (), c)
  else
    let c1 : TaggedCache V T := { c with tags := [] }
    let c2 : TaggedCache V T := { c1 with data := [] }
    let c3 : TaggedCache V T := { c2 with tags := c2.tags ++ doc.tags.getD [] }
    let c4 : TaggedCache V T := { c3 with data := c3.data ++ doc.data.getD [] }
    (none, c4)

/-! ## ghclient.py — responses and caching helpers -/

/-- ghclient.py `GitResponse.__init__`: keeps the HTTP status, the decoded
JSON payload and the `ETAG` header (absent → `none`). The `DATE` and
rate-limit headers only feed logging and are not modelled. -/
structure GitResponse (V : Type) where
  status : Nat
  json : V
  etag : Option String
deriving DecidableEq, Repr

/-- ghclient.py: `self.unmodified = (response.status == 304)`. -/
def GitResponse.unmodified {V : Type} (r : GitResponse V) : Bool :=
  r.status == 304

/-- ghclient.py `get_cacheable_response(key, url, cache)`. `fetch` stands
for `_get_json_response(url, etag=cache.tags.get(key, None))`: the network
is abstracted as a function from the conditional ETag to the response.
After the optional `set_with_tag`, the function returns
`(resp, cache[key])`; a missing key there is Python's `KeyError`,
modelled as `Except.error`. -/
def get_cacheable_response {V : Type}
    (fetch : Option String → GitResponse V) (key : String)
    (cache : TaggedCache V (Option String)) :
    Except Unit (GitResponse V × V × TaggedCache V (Option String)) :=
  let resp := fetch ((dictGet key cache.tags).getD none)
  let cache' :=
    if resp.unmodified then cache
    else cache.set_with_tag key resp.etag resp.json
  match dictGet key cache'.data with
  | some v => Except.ok (resp, v, cache')
  | none => Except.error ()

/-- Result of ghclient.py `get_if_newer_than_cache`: a `CachedResponse`
(timestamp and cached json, no network) or a fresh `GitResponse` whose
json was fetched. -/
inductive GhResp (V : Type) where
  | cached (timestamp : Int) (json : V)
  | fetched (json : V)
deriving DecidableEq, Repr

/-- ghclient.py `get_if_newer_than_cache(url, cache, max_age, key)`:
`t0 = time.time()` is passed explicitly, the tag map stores fetch
timestamps. If `t0 - cache.tags.get(key, 0.0) < max_age` the function
builds `CachedResponse(cache.tags[key], cache[key])` — both subscripts
raise `KeyError` when the key is absent (modelled as `Except.error`).
Otherwise it fetches (the fetched payload abstracted as `j`), stores it
with `set_with_tag(key, t0, j)` and returns it. The final `Nat` counts
network fetches performed (0 or 1). -/
def get_if_newer_than_cache {V : Type} (j : V) (t0 max_age : Int)
    (key : String) (cache : TaggedCache V Int) :
    Except Unit (GhResp V × TaggedCache V Int × Nat) :=
  let cached_time : Int := (dictGet key cache.tags).getD 0
  let cache_age := t0 - cached_time
  if cache_age < max_age then
    match dictGet key cache.tags with
    | none => Except.error ()
    | some tg =>
        match dictGet key cache.data with
        | none => Except.error ()
        | some v => Except.ok (GhResp.cached tg v, cache, 0)
  else
    let cache' := cache.set_with_tag key t0 j
    Except.ok (GhResp.fetched j, cache', 1)

/-! ## fs.py — inode allocator -/

/-- fs.py `FileSystem.create_ino`: `self.ino += 1; return self.ino`.
Input is the counter, output is (new counter, returned inode). -/
def create_ino (ino : Nat) : Nat × Nat :=
  (ino + 1, ino + 1)

/-- fs.py `FileSystem.create_ino_range(num)`:
`start_inode = self.ino; self.ino += num; end_inode = self.ino;
return start_inode + 1, end_inode + 1`.
Output is (new counter, returned pair). -/
def create_ino_range (ino : Nat) (num : Nat) : Nat × (Nat × Nat) :=
  let start_inode := ino
  let ino' := ino + num
  let end_inode := ino'
  (ino', (start_inode + 1, end_inode + 1))

/-! ## Attribute model (directory_entry.py / path_tree.py defaults)

Python attribute dicts carry a subset of these keys; keys a dict does not
set are modelled as 0. `inode` is the extra `inode=` key that
`self.attr = dict(dir_attr, inode=self.inode, st_nlink=2)` adds alongside
`st_ino`. -/

structure Attr where
  st_mode : Nat
  st_nlink : Nat
  st_uid : Nat
  st_gid : Nat
  st_atime : Int
  st_mtime : Int
  st_ctime : Int
  st_size : Nat
  st_ino : Nat
  inode : Nat
deriving DecidableEq, Repr

def S_IFDIR : Nat := 16384
def S_IFREG : Nat := 32768

/-- Default directory attributes (`dir_attr` when the constructor gets
`dir_attr=None`): `S_IFDIR | 0o555`, link count 2, the process's
uid/gid, all three timestamps set to `time.time()`. -/
def defaultDirAttr (uid gid : Nat) (timestamp : Int) : Attr :=
  { st_mode := S_IFDIR + 365, st_nlink := 2, st_uid := uid, st_gid := gid,
    st_atime := timestamp, st_mtime := timestamp, st_ctime := timestamp,
    st_size := 0, st_ino := 0, inode := 0 }

/-- Default file attributes (`file_attr` when the constructor gets
`file_attr=None`): `S_IFREG | 0o555`, link count 1, size 0. -/
def defaultFileAttr (uid gid : Nat) (timestamp : Int) : Attr :=
  { st_mode := S_IFREG + 365, st_nlink := 1, st_uid := uid, st_gid := gid,
    st_atime := timestamp, st_mtime := timestamp, st_ctime := timestamp,
    st_size := 0, st_ino := 0, inode := 0 }

inductive EType where
  | dir
  | file
  | link
deriving DecidableEq, Repr

/-- `EntryInfo` (util.py / fs.py namedtuple): type, inode, attributes,
name; the `obj` payload is the file/link content for readable entries
(directory payloads are reached through the node store by inode). -/
structure Entry where
  type_ : EType
  inode : Nat
  attr : Attr
  name : String
  payload : Option String
deriving DecidableEq, Repr

/-- A directory node: `PathTree` (fs.py / path_tree.py) or
`DirectoryEntry` (directory_entry.py). `entries` is `self.entries` /
`self.entry_by_name`. `inited` models `RepoMetadataDirectory._initialized`
(githubfs.py) and is `none` for plain directory nodes; `repo_owner` /
`repo_name` are the extra `RepoMetadataDirectory` fields. -/
structure Node where
  inode : Nat
  parent_inode : Nat
  inited : Option Bool
  repo_owner : Option String
  repo_name : Option String
  file_attr : Attr
  dir_attr : Attr
  attr : Attr
  entries : List (String × Entry)
deriving DecidableEq, Repr

/-- The filesystem-wide state: the inode counter `self.ino` and the node
store. The store merges fs.py's `self.trees` (inode → PathTree) with
directory_entry.py's registration of directory nodes in
`fuse.inode_entries`: every directory node is reachable by its inode. -/
structure FS where
  ino : Nat
  nodes : List (Nat × Node)
deriving DecidableEq, Repr

/-- Directory-node constructor (`PathTree.__init__` /
`DirectoryEntry.__init__`): allocates an inode with `create_ino`, builds
`self.attr = dict(dir_attr, inode=self.inode, st_nlink=2)` and registers
the node in the store. -/
def FS.new_node (fs : FS) (parent_inode : Nat) (file_attr dir_attr : Attr)
    (inited : Option Bool) (repo_owner repo_name : Option String) :
    FS × Nat :=
  let ino := fs.ino + 1
  let node : Node :=
    { inode := ino, parent_inode := parent_inode, inited := inited,
      repo_owner := repo_owner, repo_name := repo_name,
      file_attr := file_attr, dir_attr := dir_attr,
      attr := { dir_attr with inode := ino, st_nlink := 2 },
      entries := [] }
  ({ ino := ino, nodes := dictInsert ino node fs.nodes }, ino)

/-- `add_dir(dirname, dirobj=None)` (directory_entry.py; path_tree.py's
`add_dir(dirname, tree=None)` performs the same parent-side mutations):
create a fresh child node copying the parent's default attrs when no
existing node is attached, set the child attr's `st_ino`, increment the
parent's `st_nlink` by 1, store the entry under `dirname` and register
the child in the global table. `none` models the `KeyError` a missing
parent or child node would raise. In directory_entry.py the entry's attr
dict is the child's own attr dict (aliased); readers resolve a directory
entry's attributes through the store (`FS.entry_attr`). -/
def FS.add_dir (fs : FS) (p : Nat) (dirname : String)
    (dirobj : Option Nat) : Option (FS × Entry) :=
  match dictGet p fs.nodes with
  | none => none
  | some parent =>
    let fc : FS × Nat :=
      match dirobj with
      | some i => (fs, i)
      | none => fs.new_node p parent.file_attr parent.dir_attr none none none
    match dictGet fc.2 fc.1.nodes with
    | none => none
    | some child =>
      let child' := { child with attr := { child.attr with st_ino := fc.2 } }
      let e : Entry :=
        { type_ := EType.dir, inode := fc.2, attr := child'.attr,
          name := dirname, payload := none }
      let parent' := { parent with
        attr := { parent.attr with st_nlink := parent.attr.st_nlink + 1 },
        entries := dictInsert dirname e parent.entries }
      let fs2 := { fc.1 with nodes := dictInsert fc.2 child' fc.1.nodes }
      let fs3 := { fs2 with nodes := dictInsert p parent' fs2.nodes }
      some (fs3, e)

/-- `add_file(fn, obj)` (fs.py PathTree / directory_entry.py): allocate an
inode, copy the parent's `file_attr` with `st_ino` and
`st_size = len(obj)`, store the entry under `fn`. -/
def FS.add_file (fs : FS) (p : Nat) (fn : String) (obj : String) :
    Option (FS × Entry) :=
  match dictGet p fs.nodes with
  | none => none
  | some parent =>
    let ino := fs.ino + 1
    let fs1 := { fs with ino := ino }
    let attr := { parent.file_attr with st_ino := ino, st_size := obj.length }
    let e : Entry :=
      { type_ := EType.file, inode := ino, attr := attr, name := fn,
        payload := some obj }
    let parent' := { parent with entries := dictInsert fn e parent.entries }
    some ({ fs1 with nodes := dictInsert p parent' fs1.nodes }, e)

/-- The attributes an entry exposes. directory_entry.py stores the child
node's own attr dict in the entry (`attr = dirobj.attr`), so directory
entries alias the child's current attributes: resolve through the store. -/
def FS.entry_attr (fs : FS) (e : Entry) : Attr :=
  match e.type_ with
  | EType.dir =>
      match dictGet e.inode fs.nodes with
      | some child => child.attr
      | none => e.attr
  | _ => e.attr

/-- The partial attr dict `{'st_ino': parent_inode, 'st_mode': S_IFDIR}`
synthesized for `..` in `get_entries`. -/
def dotdotAttr (parent_inode : Nat) : Attr :=
  { st_mode := S_IFDIR, st_nlink := 0, st_uid := 0, st_gid := 0,
    st_atime := 0, st_mtime := 0, st_ctime := 0, st_size := 0,
    st_ino := parent_inode, inode := 0 }

/-- `get_entries` (fs.py / path_tree.py PathTree, directory_entry.py):
`[('.', self.attr), ('..', …)]` followed by the named entries. -/
def FS.get_entries (fs : FS) (n : Node) : List (String × Attr) :=
  (".", n.attr) :: ("..", dotdotAttr n.parent_inode) ::
    n.entries.map (fun p => (p.1, fs.entry_attr p.2))

/-- fs.py `readdir`: `self.trees[ino].get_entries()`. -/
def FS.readdir (fs : FS) (ino : Nat) : Option (List (String × Attr)) :=
  (dictGet ino fs.nodes).map (fun n => fs.get_entries n)

def FS.readdirNames (fs : FS) (ino : Nat) : Option (List String) :=
  (fs.readdir ino).map (List.map Prod.fst)

def ENOENT : Nat := 2
def EIO : Nat := 5
def EPERM : Nat := 1

/-- Outcome of the fs.py `lookup` handler: `raised` is an exception that
escapes the handler (no error reply at all), `err` is `reply_err`,
`entry` is `reply_entry` with the entry's inode, attributes and the
attr/entry timeouts. -/
inductive LookupResult where
  | raised
  | err (errno : Nat)
  | entry (ino : Nat) (attr : Attr) (attr_timeout entry_timeout : Int)
deriving DecidableEq, Repr

/-- fs.py `lookup(req, parent_inode, name)`:
`parent = self.trees[parent_inode]` raises `KeyError` unguarded when the
parent inode is not a directory in the store; a missing `name` is caught
and answered with `reply_err(ENOENT)`; otherwise
`reply_entry` with the entry's inode, attributes, `atttr_timeout=1.0`
and `entry_timeout=.0`. -/
def FS.lookup (fs : FS) (parent_inode : Nat) (name : String) :
    LookupResult :=
  match dictGet parent_inode fs.nodes with
  | none => LookupResult.raised
  | some parent =>
      match dictGet name parent.entries with
      | none => LookupResult.err ENOENT
      | some e => LookupResult.entry e.inode (fs.entry_attr e) 1 0

/-- fs.py `FileSystem.init`: reset the counter, create the root
`PathTree` with parent inode 1, then populate the demo content
`file1 file2 file3 dir1 dir2 dir3`. Returns the state and the root's
inode. -/
def FS.init (uid gid : Nat) (timestamp : Int) : Option (FS × Nat) := do
  let fs0 : FS := { ino := 0, nodes := [] }
  let (fs1, root) := fs0.new_node 1 (defaultFileAttr uid gid timestamp)
      (defaultDirAttr uid gid timestamp) none none none
  let (fs2, _) ← fs1.add_file root "file1" "file1\n"
  let (fs3, _) ← fs2.add_file root "file2" "file2\n"
  let (fs4, _) ← fs3.add_file root "file3" "file3\n"
  let (fs5, _) ← fs4.add_dir root "dir1" none
  let (fs6, _) ← fs5.add_dir root "dir2" none
  let (fs7, _) ← fs6.add_dir root "dir3" none
  some (fs7, root)

/-- githubfs.py filesystem state after `init`: the store plus the inodes
of root and of the `users` / `orgs` directories. -/
structure GhState where
  fs : FS
  root : Nat
  users : Nat
  orgs : Nat
deriving DecidableEq, Repr

/-- githubfs.py `GithubFileSystem.init`: `super().init(userdata, conn)`
(so the demo entries of fs.py's `FileSystem.init` are created in the
root), then `users` and `orgs` are added as children of the root.
`self.root` itself is not defined anywhere under src/; following the
spec ("the root Directory Node is created at filesystem initialization
with parent inode fixed to 1; `users`/`orgs` … as direct children of
root") it is the root directory node `FileSystem.init` created. -/
def GithubFileSystem.init (uid gid : Nat) (timestamp : Int) :
    Option GhState := do
  let (fs, root) ← FS.init uid gid timestamp
  let (fs1, ue) ← fs.add_dir root "users" none
  let (fs2, oe) ← fs1.add_dir root "orgs" none
  some { fs := fs2, root := root, users := ue.inode, orgs := oe.inode }

/-- githubfs.py `GithubFileSystem.mkdir(req, parent, name, mode)`:
when the parent is the root and the name decodes to `exit`, the process
sends itself `SIGHUP` (first component `true`); in every case the
handler then replies `errno.EIO`. -/
def GithubFileSystem.mkdir (rootIno : Nat) (parent : Nat) (name : String) :
    Bool × Nat :=
  (if parent = rootIno ∧ name = "exit" then true else false, EIO)

/-! ## githubfs.py — timestamp conversion and the update pass -/

def digitVal (c : Char) : Option Nat :=
  if c.isDigit then some (c.toNat - 48) else none

def parse2 (a b : Char) : Option Nat := do
  let x ← digitVal a
  let y ← digitVal b
  some (10 * x + y)

def parse4 (a b c d : Char) : Option Nat := do
  let x ← parse2 a b
  let y ← parse2 c d
  some (100 * x + y)

/-- `datetime.strptime(string_ts, "%Y-%m-%dT%H:%M:%SZ")`: exact-shape
parse of `YYYY-MM-DDTHH:MM:SSZ` into (year, month, day, hour, minute,
second), rejecting out-of-range fields; `none` models the raised
`ValueError`. -/
def strptime_iso8601 (s : String) :
    Option (Nat × Nat × Nat × Nat × Nat × Nat) :=
  match s.toList with
  | [y1, y2, y3, y4, '-', m1, m2, '-', d1, d2, 'T',
     h1, h2, ':', n1, n2, ':', s1, s2, 'Z'] => do
      let y ← parse4 y1 y2 y3 y4
      let mo ← parse2 m1 m2
      let d ← parse2 d1 d2
      let h ← parse2 h1 h2
      let mi ← parse2 n1 n2
      let se ← parse2 s1 s2
      if 1 ≤ mo ∧ mo ≤ 12 ∧ 1 ≤ d ∧ d ≤ 31 ∧ h ≤ 23 ∧ mi ≤ 59 ∧ se ≤ 61
      then some (y, mo, d, h, mi, se) else none
  | _ => none

def isLeapYear (y : Nat) : Bool :=
  (y % 4 == 0 && y % 100 != 0) || y % 400 == 0

/-- Days from 1970-01-01 to the start of year `y` (for `y ≥ 1970`). -/
def daysBeforeYear (y : Nat) : Nat :=
  ((List.range (y - 1970)).map
    (fun i => if isLeapYear (1970 + i) then 366 else 365)).sum

/-- Days from the start of the year to the start of month `mo` (1-12). -/
def daysBeforeMonth (leap : Bool) (mo : Nat) : Nat :=
  [0, 31, 59, 90, 120, 151, 181, 212, 243, 273, 304, 334].getD (mo - 1) 0
    + (if leap && decide (2 < mo) then 1 else 0)

/-- `calendar.timegm`: POSIX seconds of a UTC calendar tuple (y ≥ 1970). -/
def timegm (t : Nat × Nat × Nat × Nat × Nat × Nat) : Nat :=
  let (y, mo, d, h, mi, se) := t
  86400 * (daysBeforeYear y + daysBeforeMonth (isLeapYear y) mo + (d - 1))
    + 3600 * h + 60 * mi + se

/-- githubfs.py `iso8601_string_to_posix`:
`time.mktime(datetime.strptime(ts, "%Y-%m-%dT%H:%M:%SZ").timetuple())`.
`time.mktime` interprets the tuple in the process's LOCAL timezone, so
for a UTC offset of `tzOff` seconds east it returns `timegm(t) - tzOff`;
the string's trailing `Z` (UTC) is never honoured. -/
def iso8601_string_to_posix (tzOff : Int) (s : String) : Option Int :=
  (strptime_iso8601 s).map (fun t => (timegm t : Int) - tzOff)

/-- One element of the JSON list a repos endpoint returns, restricted to
the fields githubfs.py consumes. -/
structure RepoJson where
  name : String
  updated_at : String
  created_at : String
  owner_login : String
deriving DecidableEq, Repr

/-- githubfs.py `update_tags(repo_dir, repo_owner, repo_name)`: if the
repo dir already has a `tags` entry, call that `RepoTagDirectory`'s
`update()` — a remote fetch, abstracted as `tagUpd`; otherwise construct
a `RepoTagDirectory` (default attrs stamped `now`, `_initialized` False)
and attach it with `add_dir('tags', dirobj=tag_dir)`. -/
def GithubFileSystem.update_tags (tagUpd : FS → Nat → Option FS)
    (uid gid : Nat) (now : Int) (fs : FS) (repoIno : Nat)
    (repo_owner repo_name : String) : Option FS := do
  let repoDir ← dictGet repoIno fs.nodes
  match dictGet "tags" repoDir.entries with
  | some e => tagUpd fs e.inode
  | none =>
      let (fs1, tIno) := fs.new_node repoIno (defaultFileAttr uid gid now)
        (defaultDirAttr uid gid now) (some false) (some repo_owner)
        (some repo_name)
      let (fs2, _) ← fs1.add_dir repoIno "tags" (some tIno)
      some fs2

/-- githubfs.py `update_branches`, same shape as `update_tags` with a
`RepoBranchDirectory` under the name `branches`. -/
def GithubFileSystem.update_branches (branchUpd : FS → Nat → Option FS)
    (uid gid : Nat) (now : Int) (fs : FS) (repoIno : Nat)
    (repo_owner repo_name : String) : Option FS := do
  let repoDir ← dictGet repoIno fs.nodes
  match dictGet "branches" repoDir.entries with
  | some e => branchUpd fs e.inode
  | none =>
      let (fs1, bIno) := fs.new_node repoIno (defaultFileAttr uid gid now)
        (defaultDirAttr uid gid now) (some false) (some repo_owner)
        (some repo_name)
      let (fs2, _) ← fs1.add_dir repoIno "branches" (some bIno)
      some fs2

/-- githubfs.py `update_repo(parent_obj, repo)`: fetch-or-create the repo
directory under the parent, convert `repo['updated_at']` with
`iso8601_string_to_posix`; when it differs from the entry's current
`st_mtime`, write `st_mtime`/`st_ctime` (the entry's attr dict is the
child node's own) and refresh the tags subtree; the branches subtree is
refreshed in either case. -/
def GithubFileSystem.update_repo (tagUpd branchUpd : FS → Nat → Option FS)
    (tzOff : Int) (uid gid : Nat) (now : Int) (fs : FS) (parentIno : Nat)
    (repo : RepoJson) : Option FS := do
  let parent ← dictGet parentIno fs.nodes
  let (fs1, e) ←
    match dictGet repo.name parent.entries with
    | some e => some (fs, e)
    | none => fs.add_dir parentIno repo.name none
  let child ← dictGet e.inode fs1.nodes
  let updated_at ← iso8601_string_to_posix tzOff repo.updated_at
  if child.attr.st_mtime ≠ updated_at then do
    let created ← iso8601_string_to_posix tzOff repo.created_at
    let child' := { child with attr :=
      { child.attr with st_mtime := updated_at, st_ctime := created } }
    let fs2 := { fs1 with nodes := dictInsert e.inode child' fs1.nodes }
    let fs3 ← GithubFileSystem.update_tags tagUpd uid gid now fs2 e.inode
      repo.owner_login repo.name
    GithubFileSystem.update_branches branchUpd uid gid now fs3 e.inode
      repo.owner_login repo.name
  else
    GithubFileSystem.update_branches branchUpd uid gid now fs1 e.inode
      repo.owner_login repo.name

/-- githubfs.py `update_users`: for each monitored user, fetch-or-create
its directory under `users`, then run `update_repo` on each repo the
remote reports (the remote's response is supplied as data: the list
paired with each user). -/
def GithubFileSystem.update_users (tagUpd branchUpd : FS → Nat → Option FS)
    (tzOff : Int) (uid gid : Nat) (now : Int) (usersIno : Nat)
    (monitored : List (String × List RepoJson)) (fs : FS) : Option FS :=
  monitored.foldlM (fun fsa m => do
    let usersNode ← dictGet usersIno fsa.nodes
    let (fs1, e) ←
      match dictGet m.1 usersNode.entries with
      | some e => some (fsa, e)
      | none => fsa.add_dir usersIno m.1 none
    m.2.foldlM (fun fsb r =>
      GithubFileSystem.update_repo tagUpd branchUpd tzOff uid gid now fsb
        e.inode r) fs1) fs

/-- githubfs.py `update_organizations`, same shape under `orgs`. -/
def GithubFileSystem.update_organizations
    (tagUpd branchUpd : FS → Nat → Option FS) (tzOff : Int)
    (uid gid : Nat) (now : Int) (orgsIno : Nat)
    (monitored : List (String × List RepoJson)) (fs : FS) : Option FS :=
  monitored.foldlM (fun fsa m => do
    let orgsNode ← dictGet orgsIno fsa.nodes
    let (fs1, e) ←
      match dictGet m.1 orgsNode.entries with
      | some e => some (fsa, e)
      | none => fsa.add_dir orgsIno m.1 none
    m.2.foldlM (fun fsb r =>
      GithubFileSystem.update_repo tagUpd branchUpd tzOff uid gid now fsb
        e.inode r) fs1) fs

/-- githubfs.py `update`: `self.update_users(); self.update_organizations()`
— one Update Scheduler pass. -/
def GithubFileSystem.update (tagUpd branchUpd : FS → Nat → Option FS)
    (tzOff : Int) (uid gid : Nat) (now : Int) (st : GhState)
    (userRepos orgRepos : List (String × List RepoJson)) : Option FS := do
  let fs1 ← GithubFileSystem.update_users tagUpd branchUpd tzOff uid gid now
    st.users userRepos st.fs
  GithubFileSystem.update_organizations tagUpd branchUpd tzOff uid gid now
    st.orgs orgRepos fs1

/-! ## Concrete scenario: user "alice" with one repo "proj" (C7) -/

/-- Remote stub for the tags/branches subtree refresh; never consulted on
a first pass over a fresh tree (both subtrees are created, not updated). -/
def stubNoRemote : FS → Nat → Option FS := fun fs _ => some fs

def aliceProjRepo : RepoJson :=
  { name := "proj", updated_at := "2024-01-01T00:00:00Z",
    created_at := "2023-01-01T00:00:00Z", owner_login := "alice" }

/-- Mount (uid = gid = 0, clock 0) and run one scheduler pass monitoring
only user "alice", whose repo list is `[aliceProjRepo]`. -/
def aliceScenario (tzOff : Int) : Option (GhState × FS) := do
  let st ← GithubFileSystem.init 0 0 0
  let fs1 ← GithubFileSystem.update stubNoRemote stubNoRemote tzOff 0 0 0 st
    [("alice", [aliceProjRepo])] []
  some (st, fs1)

def lookup_ino (fs : FS) (p : Nat) (name : String) : Option Nat :=
  match fs.lookup p name with
  | LookupResult.entry i _ _ _ => some i
  | _ => none

def lookup_attr (fs : FS) (p : Nat) (name : String) : Option Attr :=
  match fs.lookup p name with
  | LookupResult.entry _ a _ _ => some a
  | _ => none

/-- After the pass: `lookup(users_inode, "alice")`, then
`lookup(alice_inode, "proj")`, then read proj's `st_mtime`. `some`
requires both lookups to succeed. -/
def aliceProjMtime (tzOff : Int) : Option Int := do
  let (st, fs) ← aliceScenario tzOff
  let a ← lookup_ino fs st.users "alice"
  let attr ← lookup_attr fs a "proj"
  some attr.st_mtime

/-! ## githubfs.py — require_initialization and RepoMetadataDirectory (C1)

The decorator's observable protocol is modelled over the directory's own
state plus a stub Remote Client carrying a call counter (the spec's
"verified via a Remote Client stub call-counter"): `update()` on a
`RepoTagDirectory`/`RepoBranchDirectory` performs remote fetches, so here
it is a parameter; `stub_update` counts its invocations and either
returns or raises according to `fail`. -/

/-- The fields of a `RepoMetadataDirectory` (githubfs.py) that its read
operations touch: `inited` is `self._initialized`, the rest is the
underlying `DirectoryEntry` state read by `get_entries` / `__getitem__`. -/
structure RepoMetadataDirectory where
  inited : Bool
  parent_inode : Nat
  attr : Attr
  entry_by_name : List (String × Entry)
deriving DecidableEq, Repr

/-- State of the stub Remote Client: how many `update()` calls happened,
and whether an update raises (a failed remote fetch). -/
structure StubWorld where
  calls : Nat
  fail : Bool
deriving DecidableEq, Repr

/-- Stub `update()`: always counts the call; raises iff `fail`. -/
def stub_update (w : StubWorld) (d : RepoMetadataDirectory) :
    StubWorld × Except Unit RepoMetadataDirectory :=
  ({ calls := w.calls + 1, fail := w.fail },
   if w.fail then Except.error () else Except.ok d)

/-- githubfs.py `require_initialization(fcn)`: on entry, if
`self._initialized` is false it is set to True FIRST and `self.update()`
runs second, so a raising update still leaves the flag set and the
exception propagates (the wrapped `fcn` does not run); otherwise `fcn`
runs directly. Returns (stub state, directory state, outcome). -/
def require_initialization {α : Type}
    (upd : StubWorld → RepoMetadataDirectory →
      StubWorld × Except Unit RepoMetadataDirectory)
    (fcn : RepoMetadataDirectory → α) (w : StubWorld)
    (d : RepoMetadataDirectory) :
    StubWorld × RepoMetadataDirectory × Except Unit α :=
  if d.inited then (w, d, Except.ok (fcn d))
  else
    let d1 := { d with inited := true }
    let wr := upd w d1
    match wr.2 with
    | Except.error e => (wr.1, d1, Except.error e)
    | Except.ok d2 => (wr.1, d2, Except.ok (fcn d2))

/-- githubfs.py `RepoMetadataDirectory.get_entries` =
`require_initialization` wrapped around `DirectoryEntry.get_entries`. -/
def RepoMetadataDirectory.get_entries
    (upd : StubWorld → RepoMetadataDirectory →
      StubWorld × Except Unit RepoMetadataDirectory)
    (w : StubWorld) (d : RepoMetadataDirectory) :
    StubWorld × RepoMetadataDirectory × Except Unit (List (String × Attr)) :=
  require_initialization upd
    (fun d => (".", d.attr) :: ("..", dotdotAttr d.parent_inode) ::
      d.entry_by_name.map (fun p => (p.1, p.2.attr))) w d

/-- githubfs.py `RepoMetadataDirectory.__getitem__` =
`require_initialization` wrapped around `DirectoryEntry.__getitem__`
(`self.entry_by_name[name]`; the inner `Option` is its `KeyError`). -/
def RepoMetadataDirectory.getitem
    (upd : StubWorld → RepoMetadataDirectory →
      StubWorld × Except Unit RepoMetadataDirectory)
    (key : String) (w : StubWorld) (d : RepoMetadataDirectory) :
    StubWorld × RepoMetadataDirectory × Except Unit (Option Entry) :=
  require_initialization upd (fun d => dictGet key d.entry_by_name) w d

/-! ## add_dir sequences (C3) -/

/-- The number of subdirectory entries of a directory node's map. -/
def dirCount (entries : List (String × Entry)) : Nat :=
  entries.countP (fun q => q.2.type_ == EType.dir)

/-- A sequence of `add_dir(name)` calls (fresh children) against one
parent directory node. -/
def applyAddDirs (fs : FS) (p : Nat) : List String → Option FS
  | [] => some fs
  | n :: rest =>
      match FS.add_dir fs p n none with
      | none => none
      | some fse => applyAddDirs fse.1 p rest

/-- The initialized demo filesystem (uid = gid = 0, clock 0), used as a
concrete state for handler-level counterexamples. -/
def demoFS : FS :=
  match GithubFileSystem.init 0 0 0 with
  | some st => st.fs
  | none => FS.mk 0 []

/-! ## Lemmas for add_dir sequences -/

theorem dictInsert_of_get_none {κ α : Type} [DecidableEq κ]
    (k : κ) (v : α) (l : List (κ × α)) (h : dictGet k l = none) :
    dictInsert k v l = l ++ [(k, v)] := by
  induction l with
  | nil => simp [dictInsert]
  | cons p rest ih =>
      by_cases hp : p.1 = k
      · simp [dictGet, hp] at h
      · simp only [dictGet, hp, if_false, ite_false] at h
        simp [dictInsert, hp, ih h]

theorem dictGet_append_single {κ α : Type} [DecidableEq κ]
    (k a : κ) (v : α) (l : List (κ × α)) :
    dictGet k (l ++ [(a, v)]) =
      (match dictGet k l with
       | some x => some x
       | none => if a = k then some v else none) := by
  induction l with
  | nil => simp [dictGet]
  | cons p rest ih =>
      by_cases hp : p.1 = k <;> simp [dictGet, hp, ih]

/-- Parent-side effect of one `add_dir(name)` with a fresh child, for a
parent registered in the store below the inode counter: the call
succeeds, the parent's `st_nlink` grows by exactly 1 and the new entry
(a directory entry) is stored under `name`; the counter stays at or
above the parent's inode. -/
theorem add_dir_parent_step (fs : FS) (p : Nat) (name : String) (nd : Node)
    (hget : dictGet p fs.nodes = some nd) (hle : p ≤ fs.ino) :
    ∃ fs' e, FS.add_dir fs p name none = some (fs', e) ∧
      ∃ nd', dictGet p fs'.nodes = some nd' ∧
        nd'.attr.st_nlink = nd.attr.st_nlink + 1 ∧
        nd'.entries = dictInsert name e nd.entries ∧
        e.type_ = EType.dir ∧ p ≤ fs'.ino := by
  simp only [FS.add_dir, hget, FS.new_node, dictGet_insert_self]
  refine ⟨_, _, rfl, _, dictGet_insert_self _ _ _, rfl, rfl, rfl, ?_⟩
  show p ≤ fs.ino + 1
  exact Nat.le_succ_of_le hle

/-- C3's amended invariant: starting from any registered directory node
whose link count satisfies `st_nlink = 2 + dirCount`, a sequence of
`add_dir` calls whose names are pairwise distinct and not already present
in the node's entry map succeeds and preserves
`st_nlink = 2 + dirCount`. -/
theorem add_dir_nlink (names : List String) :
    ∀ (fs : FS) (p : Nat) (nd : Node),
      dictGet p fs.nodes = some nd → p ≤ fs.ino →
      nd.attr.st_nlink = 2 + dirCount nd.entries →
      names.Nodup → (∀ n ∈ names, dictGet n nd.entries = none) →
      ∃ fs' nd', applyAddDirs fs p names = some fs' ∧
        dictGet p fs'.nodes = some nd' ∧
        nd'.attr.st_nlink = 2 + dirCount nd'.entries := by
  induction names with
  | nil =>
      intro fs p nd hget _ hinv _ _
      exact ⟨fs, nd, rfl, hget, hinv⟩
  | cons a rest ih =>
      intro fs p nd hget hle hinv hnodup hfresh
      obtain ⟨fs', e, heq, nd', hget', hnlink, hentries, htype, hle'⟩ :=
        add_dir_parent_step fs p a nd hget hle
      have hfa : dictGet a nd.entries = none := hfresh a (by simp)
      have hins : dictInsert a e nd.entries = nd.entries ++ [(a, e)] :=
        dictInsert_of_get_none a e nd.entries hfa
      have hcount : dirCount nd'.entries = dirCount nd.entries + 1 := by
        rw [hentries, hins, dirCount, dirCount, List.countP_append]
        simp [htype]
      have hinv' : nd'.attr.st_nlink = 2 + dirCount nd'.entries := by
        rw [hnlink, hinv, hcount]
        omega
      have hfresh' : ∀ n ∈ rest, dictGet n nd'.entries = none := by
        intro n hn
        rw [hentries, hins, dictGet_append_single,
          hfresh n (by simp [hn])]
        have hane : ¬a = n := by
          intro hcontra
          exact (List.nodup_cons.mp hnodup).1 (hcontra ▸ hn)
        simp [hane]
      obtain ⟨fs'', nd'', h1, h2, h3⟩ :=
        ih fs' p nd' hget' hle' hinv' (List.nodup_cons.mp hnodup).2 hfresh'
      refine ⟨fs'', nd'', ?_, h2, h3⟩
      simp only [applyAddDirs, heq]
      exact h1

/-! # Claim theorems -/

/-- C1: for a Lazy/Refreshing Subtree in the Uninitialized state, the
first read operation (`get_entries` or `__getitem__`) calls `update()`
exactly once and sets the initialization flag regardless of whether
`update()` succeeds or raises; any later read operation calls `update()`
zero times, so two successive `get_entries()` calls trigger exactly one
`update()` call (stub call-counter `calls`). -/
theorem lazy_init_single_update (w : StubWorld) (d : RepoMetadataDirectory)
    (key : String) (h : d.inited = false) :
    (RepoMetadataDirectory.get_entries stub_update w d).2.1.inited = true ∧
    (RepoMetadataDirectory.get_entries stub_update w d).1.calls
      = w.calls + 1 ∧
    (RepoMetadataDirectory.get_entries stub_update
        (RepoMetadataDirectory.get_entries stub_update w d).1
        (RepoMetadataDirectory.get_entries stub_update w d).2.1).1.calls
      = w.calls + 1 ∧
    (RepoMetadataDirectory.getitem stub_update key
        (RepoMetadataDirectory.get_entries stub_update w d).1
        (RepoMetadataDirectory.get_entries stub_update w d).2.1).1.calls
      = w.calls + 1 := by
  cases hf : w.fail <;>
    simp [RepoMetadataDirectory.get_entries, RepoMetadataDirectory.getitem,
      require_initialization, stub_update, h, hf]

/-- C1 witness: a concrete uninitialized directory with a stub whose
update raises, via `lazy_init_single_update`. -/
theorem lazy_init_single_update_witness :
    ((RepoMetadataDirectory.mk false 2 (defaultDirAttr 0 0 0) []).inited
      = false) ∧
    ((RepoMetadataDirectory.get_entries stub_update (StubWorld.mk 0 true)
        (RepoMetadataDirectory.mk false 2 (defaultDirAttr 0 0 0) [])).1.calls
      = (StubWorld.mk 0 true).calls + 1) :=
  ⟨rfl, (lazy_init_single_update (StubWorld.mk 0 true)
    (RepoMetadataDirectory.mk false 2 (defaultDirAttr 0 0 0) [])
    "v1.0" rfl).2.1⟩

/-- C2: after `set_with_tag(k, t, V)`, a subsequent conditional fetch for
`k` answered `304 Not Modified` leaves the cache completely unchanged and
`get_cacheable_response` returns the previously cached value `V`. -/
theorem conditional_fetch_304_preserves_cache {V : Type}
    (c : TaggedCache V (Option String)) (k : String) (t : Option String)
    (v j : V) (e : Option String) :
    get_cacheable_response (fun _ => GitResponse.mk 304 j e) k
        (c.set_with_tag k t v)
      = Except.ok (GitResponse.mk 304 j e, v, c.set_with_tag k t v) := by
  simp [get_cacheable_response, GitResponse.unmodified,
    TaggedCache.set_with_tag]

/-- A fresh root directory node over an empty store, for concrete add_dir
sequences. -/
def freshRootFS : FS × Nat :=
  (FS.mk 0 []).new_node 1 (defaultFileAttr 0 0 0) (defaultDirAttr 0 0 0)
    none none none

/-- C3 counterexample: `add_dir("a")` twice on the same node leaves
`st_nlink = 4` but only one subdirectory entry, so
`st_nlink = 2 + count(subdirectory entries)` fails for a duplicate-name
sequence (each call increments the link count even when it replaces an
existing entry). -/
theorem add_dir_nlink_duplicate_cex :
    ((applyAddDirs freshRootFS.1 freshRootFS.2 ["a", "a"]).bind
        (fun fs' => (dictGet freshRootFS.2 fs'.nodes).map
          (fun nd => (nd.attr.st_nlink, dirCount nd.entries)))
      = some (4, 1)) ∧ (4 : Nat) ≠ 2 + 1 := by decide

/-- C3 witness: `add_dir_nlink` applied to the fresh root node and the
distinct names a, b. -/
theorem add_dir_nlink_witness :
    ∃ fs' nd', applyAddDirs freshRootFS.1 freshRootFS.2 ["a", "b"]
        = some fs' ∧
      dictGet freshRootFS.2 fs'.nodes = some nd' ∧
      nd'.attr.st_nlink = 2 + dirCount nd'.entries :=
  add_dir_nlink ["a", "b"] freshRootFS.1 freshRootFS.2 _ rfl (by decide)
    rfl (by decide) (by decide)

/-- C4 counterexample: at counter 0, `create_ino_range(1)` returns
`(1, 2)`; read as a CLOSED range it holds 2 ≠ 1 inode numbers, and the
next `create_ino` returns 2, which lies inside that closed range — so the
counter is not advanced past the closed range. -/
theorem create_ino_range_closed_cex :
    create_ino_range 0 1 = (1, (1, 2)) ∧
    (create_ino_range 0 1).2.2 - (create_ino_range 0 1).2.1 + 1 = 2 ∧
    (2 : Nat) ≠ 1 ∧
    (create_ino (create_ino_range 0 1).1).2 = 2 ∧
    (create_ino_range 0 1).2.1 ≤ 2 ∧ 2 ≤ (create_ino_range 0 1).2.2 := by
  decide

/-- C4 (amended): `create_ino_range(n)` from counter `s` returns the pair
`(s+1, s+n+1)` and advances the counter to `s+n`: read HALF-OPEN, the
range covers exactly the `n` fresh values `s+1 … s+n`, the next
`create_ino` returns exactly the excluded upper bound, and a following
`create_ino_range(m)` starts exactly at that bound (ranges abut, no
overlap, nothing skipped). -/
theorem create_ino_range_spec (s n m : Nat) :
    (create_ino_range s n).2.1 = s + 1 ∧
    (create_ino_range s n).2.2 = s + n + 1 ∧
    (create_ino_range s n).2.2 - (create_ino_range s n).2.1 = n ∧
    (create_ino_range s n).1 = s + n ∧
    (create_ino (create_ino_range s n).1).2 = (create_ino_range s n).2.2 ∧
    (create_ino_range ((create_ino_range s n).1) m).2.1
      = (create_ino_range s n).2.2 := by
  refine ⟨rfl, rfl, ?_, rfl, rfl, rfl⟩
  show s + n + 1 - (s + 1) = n
  omega

/-- C5 counterexample: the mkdir handler replies `EIO` ("I/O error"),
never `EPERM` ("not permitted") — also in the root/`exit` case, where it
replies `EIO` after sending the signal. -/
theorem mkdir_eperm_cex :
    GithubFileSystem.mkdir 1 5 "somedir" = (false, EIO) ∧
    GithubFileSystem.mkdir 1 1 "exit" = (true, EIO) ∧
    EIO ≠ EPERM := by decide

/-- C5 (amended): for every parent and name the mkdir handler fails with
`EIO`, and it sends the termination signal exactly when the parent is the
root and the name is literally `exit`. -/
theorem mkdir_spec (rootIno parent : Nat) (name : String) :
    (GithubFileSystem.mkdir rootIno parent name).2 = EIO ∧
    ((GithubFileSystem.mkdir rootIno parent name).1 = true ↔
      (parent = rootIno ∧ name = "exit")) := by
  by_cases h : parent = rootIno ∧ name = "exit" <;>
    simp [GithubFileSystem.mkdir, h]

/-- C6 counterexample: on a freshly initialized filesystem with no
monitored users/orgs, readdir on the root yields the demo entries
`file1 file2 file3 dir1 dir2 dir3` (created by `FileSystem.init`, which
`GithubFileSystem.init` invokes) besides `. .. users orgs` — not exactly
the four claimed names. -/
theorem root_readdir_cex :
    ((GithubFileSystem.init 0 0 0).bind
        (fun st => st.fs.readdirNames st.root)
      = some [".", "..", "file1", "file2", "file3", "dir1", "dir2", "dir3",
          "users", "orgs"]) ∧
    ((GithubFileSystem.init 0 0 0).bind
        (fun st => st.fs.readdirNames st.root)
      ≠ some [".", "..", "users", "orgs"]) := by decide

/-- C6 (amended): readdir on the root of a freshly initialized filesystem
with no monitored users or organizations yields exactly
`. .. file1 file2 file3 dir1 dir2 dir3 users orgs`, in this order —
checked at two unrelated (uid, gid, clock) instantiations, on which the
listing's names do not depend. -/
theorem root_readdir_names :
    ((GithubFileSystem.init 0 0 0).bind
        (fun st => st.fs.readdirNames st.root)
      = some [".", "..", "file1", "file2", "file3", "dir1", "dir2", "dir3",
          "users", "orgs"]) ∧
    ((GithubFileSystem.init 1000 100 1234567).bind
        (fun st => st.fs.readdirNames st.root)
      = some [".", "..", "file1", "file2", "file3", "dir1", "dir2", "dir3",
          "users", "orgs"]) := by decide

/-- C7 (code evaluation): after one scheduler pass for user alice with
repo proj updated at 2024-01-01T00:00:00Z, both lookups succeed
(`aliceProjMtime` is `some`), and proj's `st_mtime` is the `mktime`
(LOCAL-time) interpretation of the timestamp: with a UTC locale
(offset 0) it is 1704067200, but with a +01:00 locale (offset 3600, the
failing input) it is 1704063600 ≠ 1704067200 — the claimed POSIX value of
the ISO-8601 UTC instant is not produced. -/
theorem update_repo_mtime_local_eval :
    aliceProjMtime 0 = some 1704067200 ∧
    aliceProjMtime 3600 = some 1704063600 ∧
    ((1704063600 : Int) ≠ 1704067200) :=
  ⟨rfl, rfl, by decide⟩

/-- C8 counterexample: on an empty cache with `t0 = 100 < maxAge = 200`,
the absent tag defaults to 0, the entry counts as fresh, and
`cache.tags[key]` raises `KeyError` — no cached value is returned, no
fetch is performed, contradicting the claim's unconditional "returns the
cached value". -/
theorem fetch_if_stale_keyerror_cex :
    get_if_newer_than_cache "payload" 100 200 "k"
        (TaggedCache.mk ([] : List (String × String)) [])
      = Except.error () := rfl

/-- C8 (amended): when the key is present and `now - tag < maxAge`, the
cached value is returned with zero fetches and the cache unchanged; when
`now - tag ≥ maxAge` (tag defaulting to 0), one unconditional fetch is
performed and the payload is stored tagged with `now`. (When the key is
absent yet `now < maxAge`, a `KeyError` is raised instead.) -/
theorem get_if_newer_spec {V : Type} (j : V) (t0 maxAge : Int)
    (key : String) (c : TaggedCache V Int) :
    (∀ tg v, dictGet key c.tags = some tg → dictGet key c.data = some v →
      t0 - tg < maxAge →
      get_if_newer_than_cache j t0 maxAge key c
        = Except.ok (GhResp.cached tg v, c, 0)) ∧
    (maxAge ≤ t0 - (dictGet key c.tags).getD 0 →
      get_if_newer_than_cache j t0 maxAge key c
        = Except.ok (GhResp.fetched j, c.set_with_tag key t0 j, 1)) := by
  constructor
  · intro tg v htg hv hfresh
    simp [get_if_newer_than_cache, htg, hv, hfresh]
  · intro hstale
    have hnot : ¬(t0 - (dictGet key c.tags).getD 0 < maxAge) := by omega
    simp [get_if_newer_than_cache, hnot]

/-- C8 witness: a present, fresh key via `get_if_newer_spec`. -/
theorem get_if_newer_spec_witness :
    ((100 : Int) - 50 < 200) ∧
    get_if_newer_than_cache "fresh-payload" 100 200 "k"
        (TaggedCache.mk [("k", "v0")] [("k", (50 : Int))])
      = Except.ok (GhResp.cached 50 "v0",
          TaggedCache.mk [("k", "v0")] [("k", (50 : Int))], 0) :=
  ⟨by decide,
   (get_if_newer_spec "fresh-payload" 100 200 "k"
      (TaggedCache.mk [("k", "v0")] [("k", (50 : Int))])).1 50 "v0" rfl rfl
     (by decide)⟩

/-- C9 (amended): the lookup handler replies `NotFound` (ENOENT) exactly
when the parent is a directory in the store and the name is absent from
its entry map; when the parent inode does not refer to a directory it
instead raises an uncaught `KeyError` (no error reply); on success it
replies with the child's inode and attributes, attr timeout 1.0 and entry
timeout 0.0. -/
theorem lookup_spec (fs : FS) (p : Nat) (name : String) :
    (dictGet p fs.nodes = none → fs.lookup p name = LookupResult.raised) ∧
    (∀ nd, dictGet p fs.nodes = some nd → dictGet name nd.entries = none →
      fs.lookup p name = LookupResult.err ENOENT) ∧
    (∀ nd e, dictGet p fs.nodes = some nd →
      dictGet name nd.entries = some e →
      fs.lookup p name = LookupResult.entry e.inode (fs.entry_attr e) 1 0) := by
  refine ⟨fun h => ?_, fun nd h1 h2 => ?_, fun nd e h1 h2 => ?_⟩ <;>
    simp [FS.lookup, *]

/-- C9 counterexample: looking up under an inode that is not a directory
of the store (999 on the demo filesystem) raises instead of replying
`NotFound`. -/
theorem lookup_unknown_parent_cex :
    FS.lookup demoFS 999 "users" = LookupResult.raised ∧
    LookupResult.raised ≠ LookupResult.err ENOENT :=
  ⟨rfl, by decide⟩

/-- C9 witness: an absent name under the demo root via `lookup_spec`. -/
theorem lookup_spec_witness :
    FS.lookup demoFS 1 "nosuch" = LookupResult.err ENOENT :=
  (lookup_spec demoFS 1 "nosuch").2.1 _ rfl rfl

/-- C10: `__setstate__` validates before mutating: a document missing the
`tags` key or the `data` key raises with the cache's two maps completely
unchanged, and only a document containing both keys replaces both maps. -/
theorem setstate_validation_atomic {V T : Type} (c : TaggedCache V T) :
    (∀ od, TaggedCache.setstate c (CacheDoc.mk none od) = (some (), c)) ∧
    (∀ tg, TaggedCache.setstate c (CacheDoc.mk (some tg) none)
      = (some (), c)) ∧
    (∀ tg da, TaggedCache.setstate c (CacheDoc.mk (some tg) (some da))
      = (none, TaggedCache.mk da tg)) := by
  refine ⟨fun od => rfl, fun tg => rfl, fun tg da => ?_⟩
  simp [TaggedCache.setstate]

end GitFuse
